import Mathlib

/-!
Shallow embedding of the MatrixAI_Server job-lifecycle and balance-ledger
code (`src/routes/audioRoutes.js`, `src/routes/videoRoutes.js`, and the
user routes file containing `subtractCoins`).

Modelling conventions:
* JavaScript strings are Lean `String`s; a JS falsy string is the empty
  string, a JS falsy number is `0`, and an absent/falsy field of an API
  response is `Option.none`.
* Balances and coin amounts are `Int` (the code only ever does integer
  arithmetic on them once the request carries integers); the audio
  `duration` request field is a `Rat`, since `Math.ceil` is applied to it.
* Each remote-database call (Supabase `select` / `update` / `insert`)
  either succeeds or reports an error; the embedding takes one `Bool`
  per such call site saying whether that call succeeds, and threads the
  stored record / balance explicitly.
* Wall-clock time in the polling loop advances by exactly the
  10-second sleep per iteration and polls take no time, so the
  5-minute budget admits exactly 30 polls.
-/

/-- One row of the `user_transaction` table, as inserted by `subtractCoins`. -/
structure LedgerEntry where
  uid : String
  transaction_name : String
  coin_amount : Int
  remaining_coins : Int
  status : String
  deriving Repr, DecidableEq

/-- Outcome of the `/subtractCoins` route, distinguishing its return paths. -/
inductive SubtractResp where
  /-- 400: `Missing required fields: uid, coinAmount, transaction_name`. -/
  | missingFields
  /-- 500: `Failed to fetch user information`. -/
  | fetchError
  /-- 400: `Insufficient coins. Please buy more coins.` -/
  | insufficient
  /-- 500: `Failed to update user coins`. -/
  | updateError
  /-- 200: `Coins subtracted successfully`. -/
  | ok
  deriving Repr, DecidableEq

/-- Result of one `subtractCoins` execution: the HTTP-level outcome, the
balance stored in `users.user_coins` afterwards, and the list of
`user_transaction` rows inserted on that execution path. -/
structure SubtractResult where
  resp : SubtractResp
  newBalance : Int
  entries : List LedgerEntry
  deriving Repr, DecidableEq

/-- The `/subtractCoins` handler (user routes file, `subtractCoins`).
`balance` is the value the user fetch returns in `user_coins`;
`fetchOk` / `updateOk` say whether the user fetch and the balance
update succeed.  The JS guard `!uid || !coinAmount || !transaction_name`
rejects empty strings and a zero amount. -/
def subtractCoins (uid transaction_name : String) (coinAmount : Int)
    (balance : Int) (fetchOk updateOk : Bool) : SubtractResult :=
  if uid = "" ∨ coinAmount = 0 ∨ transaction_name = "" then
    ⟨.missingFields, balance, []⟩
  else if fetchOk = false then
    ⟨.fetchError, balance, []⟩
  else if balance < coinAmount then
    ⟨.insufficient, balance,
      [⟨uid, transaction_name, coinAmount, balance, "failed"⟩]⟩
  else if updateOk = false then
    ⟨.updateError, balance, []⟩
  else
    ⟨.ok, balance - coinAmount,
      [⟨uid, transaction_name, coinAmount, balance - coinAmount, "success"⟩]⟩

/-- Coins required by `uploadAudioUrl` (audioRoutes.js line 152):
`Math.max(2, Math.ceil(duration * 2))`. -/
def requiredCoinsAudio (duration : ℚ) : ℤ :=
  max 2 ⌈duration * 2⌉

/-- Coins required by `createVideo` (videoRoutes.js line 261): fixed 25. -/
def requiredCoinsVideo : ℤ := 25

/-- Modelled from the spec: the transcription cost formula the
specification states, `max(2, ceil(durationSeconds / 60 * 2))`, kept
separate from `requiredCoinsAudio` so the two can be compared. -/
def specTranscriptionCost (durationSeconds : ℚ) : ℤ :=
  max 2 ⌈durationSeconds / 60 * 2⌉

/-! ## Submission handlers (synchronous part)

`uploadAudioUrl` and `createVideo` validate the request, check and
reserve the coin balance, and only then insert the initial job record.
The embedding returns the HTTP-level response, whether the job record
insert was issued and succeeded, and the effect on the ledger. -/

/-- HTTP-level outcome of a submission handler. -/
inductive SubmitResp where
  /-- 400 with the given error message. -/
  | badRequest (msg : String)
  /-- 500 with the given error message. -/
  | serverError (msg : String)
  /-- 200 with `status: pending` and the number of coins charged. -/
  | accepted (requiredCoins : Int)
  deriving Repr, DecidableEq

/-- Result of the synchronous part of a submission handler. -/
structure SubmitOutcome where
  resp : SubmitResp
  jobInserted : Bool
  newBalance : Int
  entries : List LedgerEntry
  deriving Repr, DecidableEq

/-- The synchronous part of `uploadAudioUrl` (audioRoutes.js lines
123-194): validation, `checkUserCoins`, `deductCoins` (which calls the
`subtractCoins` route), then the `audio_metadata` insert.  `urlParses`
models whether `new URL(audioUrl)` succeeds; `fetchOk`, `updateOk` and
`insertOk` model the Supabase calls. -/
def uploadAudioUrl (uid audioUrl : String) (duration : ℚ)
    (urlParses : Bool) (balance : Int)
    (fetchOk updateOk insertOk : Bool) : SubmitOutcome :=
  if uid = "" ∨ audioUrl = "" then
    ⟨.badRequest "UID and audioUrl are required", false, balance, []⟩
  else if duration ≤ 0 then
    ⟨.badRequest "Duration is required and must be greater than 0", false, balance, []⟩
  else if urlParses = false then
    ⟨.badRequest "Invalid audio URL format", false, balance, []⟩
  else if audioUrl.length > 255 then
    ⟨.badRequest "Audio URL is too long (maximum 255 characters)", false, balance, []⟩
  else
    let required := requiredCoinsAudio duration
    -- checkUserCoins: fetch user_coins, compare
    if fetchOk = false then
      ⟨.badRequest "Failed to fetch user data", false, balance, []⟩
    else if balance < required then
      ⟨.badRequest "Insufficient coins. Please buy more coins.", false, balance, []⟩
    else
      -- deductCoins: POST /api/user/subtractCoins
      let sub := subtractCoins uid "Audio Transcription" required balance fetchOk updateOk
      if sub.resp ≠ .ok then
        ⟨.badRequest "Failed to deduct coins", false, sub.newBalance, sub.entries⟩
      else if insertOk = false then
        ⟨.serverError "Failed to create audio record", false, sub.newBalance, sub.entries⟩
      else
        ⟨.accepted required, true, sub.newBalance, sub.entries⟩

/-- The synchronous part of `createVideo` (videoRoutes.js lines
234-303): validation, `checkUserCoins`, `deductCoins`, then the
`video_metadata` insert.  `apiKeyPresent` models
`c.env.DASHSCOPEVIDEO_API_KEY` being set. -/
def createVideo (uid promptText : String) (apiKeyPresent : Bool)
    (balance : Int) (fetchOk updateOk insertOk : Bool) : SubmitOutcome :=
  if uid = "" ∨ promptText = "" then
    ⟨.badRequest "UID and promptText are required", false, balance, []⟩
  else if apiKeyPresent = false then
    ⟨.serverError "Video generation service is not properly configured", false, balance, []⟩
  else if promptText.length > 1000 then
    ⟨.badRequest "Prompt text is too long (maximum 1000 characters)", false, balance, []⟩
  else
    let required := requiredCoinsVideo
    if fetchOk = false then
      ⟨.badRequest "Failed to fetch user data", false, balance, []⟩
    else if balance < required then
      ⟨.badRequest "Insufficient coins. Please buy more coins.", false, balance, []⟩
    else
      let sub := subtractCoins uid "Video Generation" required balance fetchOk updateOk
      if sub.resp ≠ .ok then
        ⟨.badRequest "Failed to deduct coins", false, sub.newBalance, sub.entries⟩
      else if insertOk = false then
        ⟨.serverError "Failed to create video record", false, sub.newBalance, sub.entries⟩
      else
        ⟨.accepted required, true, sub.newBalance, sub.entries⟩

/-! ## Video background processing

`processVideoGeneration` (videoRoutes.js lines 311-465) drives one
video job: pending → processing → generating → polling loop →
completed / failed.  The embedding records every successful database
write in order, so invariants can be checked on every store-visible
state of the job. -/

/-- The `video_metadata` fields the lifecycle code reads or writes. -/
structure VideoRecord where
  status : String
  task_id : Option String
  task_status : Option String
  video_url : Option String
  error_message : Option String
  prompt_text : String
  deriving Repr, DecidableEq

/-- The record inserted by `createVideo` before background processing
starts (videoRoutes.js lines 284-298). -/
def initialVideoRecord (promptText : String) : VideoRecord :=
  ⟨"pending", none, none, none, none, promptText⟩

/-- One `checkVideoStatus` call: either the HTTP call threw, or it
returned a task status and an optional (non-empty) `video_url`. -/
inductive PollOutcome where
  | error (msg : String)
  | result (task_status : Option String) (video_url : Option String)
  deriving Repr, DecidableEq

/-- Environment of one `processVideoGeneration` run: outcomes of every
external call it can make, in program order. -/
structure VideoProcEnv where
  /-- Does the `status: processing` update succeed? -/
  statusUpdateOk : Bool
  /-- `generateVideoWithDashScope`: an error message if it threw,
  otherwise the `task_id` and `task_status` of its response
  (a missing / empty `task_id` is `none`). -/
  genResult : Except String (Option String × Option String)
  /-- Does the task-details update succeed? -/
  taskUpdateOk : Bool
  /-- Outcome of the i-th `checkVideoStatus` call. -/
  poll : Nat → PollOutcome
  /-- `downloadAndUploadVideo`: the Supabase public URL, or a thrown error. -/
  download : Except String String
  /-- Does the final `completed` update succeed? -/
  finalUpdateOk : Bool
  /-- Does the fallback `completed` update (original URL, warning) succeed?
  Its error is not checked by the code. -/
  fallbackUpdateOk : Bool
  /-- Does the `failed` update in the top-level catch succeed?
  Its error is only logged. -/
  failedUpdateOk : Bool

/-- Polling loop constant `maxPollingTime` (videoRoutes.js line 359). -/
def maxPollingTimeMs : Nat := 300000

/-- Polling loop constant `pollingInterval` (videoRoutes.js line 360). -/
def pollingIntervalMs : Nat := 10000

/-- Number of loop iterations: the loop re-enters while the elapsed
time (10 s sleep per iteration, polls taking no time) is below the
5-minute budget, so it runs `300000 / 10000 = 30` times. -/
def maxPollAttempts : Nat := maxPollingTimeMs / pollingIntervalMs

/-- Result of a `processVideoGeneration` run: final stored record,
number of `checkVideoStatus` calls made, and the list of successful
record writes in order. -/
structure VideoProcResult where
  final : VideoRecord
  pollCount : Nat
  writes : List VideoRecord
  deriving Repr, DecidableEq

/-- The top-level catch of `processVideoGeneration`: write
`status: failed` with the thrown message (the write's own error is
only logged). -/
def videoFailWith (env : VideoProcEnv) (rec : VideoRecord) (msg : String)
    (polls : Nat) (writes : List VideoRecord) : VideoProcResult :=
  if env.failedUpdateOk then
    let r := { rec with status := "failed", error_message := some msg }
    ⟨r, polls, writes ++ [r]⟩
  else
    ⟨rec, polls, writes⟩

/-- The `SUCCEEDED` branch of the polling loop (videoRoutes.js lines
376-429): try to relocate the video into Supabase storage and write the
final record; on any error in that inner try, fall back to writing the
original remote URL as `completed` with a storage warning
(the fallback write's error is not checked). -/
def videoSucceededBranch (env : VideoProcEnv) (rec : VideoRecord)
    (origUrl : String) (polls : Nat) (writes : List VideoRecord) :
    VideoProcResult :=
  let fallback : VideoProcResult :=
    if env.fallbackUpdateOk then
      let r := { rec with video_url := some origUrl, status := "completed",
                          error_message := some "Video generated but not uploaded to storage" }
      ⟨r, polls, writes ++ [r]⟩
    else
      ⟨rec, polls, writes⟩
  match env.download with
  | .error _ => fallback
  | .ok supabaseUrl =>
      if env.finalUpdateOk then
        let r := { rec with video_url := some supabaseUrl, status := "completed" }
        ⟨r, polls, writes ++ [r]⟩
      else
        -- `throw new Error('Failed to save final results')` is caught by
        -- the inner `catch (uploadError)` and takes the fallback path
        fallback

/-- The polling loop of `processVideoGeneration` (videoRoutes.js lines
363-439).  Each iteration sleeps, calls `checkVideoStatus`, writes the
returned `task_status`, then branches; every thrown error inside the
iteration — including the explicit throw on `task_status == 'FAILED'` —
is caught by the iteration's own catch, which continues polling.
`fuel` is the number of iterations the wall clock still admits. -/
def videoPollLoop (env : VideoProcEnv) : Nat → VideoRecord → Nat →
    List VideoRecord → VideoProcResult
  | 0, rec, polls, writes =>
      videoFailWith env rec
        "Video generation timed out - process took longer than expected" polls writes
  | fuel + 1, rec, polls, writes =>
      match env.poll polls with
      | .error _ => videoPollLoop env fuel rec (polls + 1) writes
      | .result ts url =>
          let rec' := { rec with task_status := ts }
          let writes' := writes ++ [rec']
          if ts = some "SUCCEEDED" ∧ url.isSome then
            videoSucceededBranch env rec' (url.getD "") (polls + 1) writes'
          else
            -- `task_status == 'FAILED'` throws, but the catch of this
            -- iteration swallows the error and the loop continues
            videoPollLoop env fuel rec' (polls + 1) writes'

/-- `processVideoGeneration` (videoRoutes.js lines 311-465), from the
freshly inserted record to the last database write of the run. -/
def processVideoGeneration (env : VideoProcEnv) (rec0 : VideoRecord) :
    VideoProcResult :=
  if env.statusUpdateOk = false then
    videoFailWith env rec0 "Failed to update processing status" 0 []
  else
    let rec1 := { rec0 with status := "processing" }
    match env.genResult with
    | .error msg => videoFailWith env rec1 msg 0 [rec1]
    | .ok (taskId?, taskStatus?) =>
        match taskId? with
        | none =>
            videoFailWith env rec1
              "Failed to initiate video generation - no task ID returned" 0 [rec1]
        | some tid =>
            if env.taskUpdateOk = false then
              videoFailWith env rec1 "Failed to save task details" 0 [rec1]
            else
              let rec2 := { rec1 with task_id := some tid,
                                      task_status := taskStatus?,
                                      status := "generating" }
              videoPollLoop env maxPollAttempts rec2 0 [rec1, rec2]

/-- All store-visible states of a video job processed from submission:
the inserted record followed by every successful write. -/
def videoTrace (env : VideoProcEnv) (promptText : String) : List VideoRecord :=
  initialVideoRecord promptText :: (processVideoGeneration env (initialVideoRecord promptText)).writes

/-- The `editVideo` route (videoRoutes.js lines 849-876): updates
`prompt_text` unconditionally — it never inspects `status`. -/
def editVideo (rec : VideoRecord) (updatedPrompt : String) : VideoRecord :=
  { rec with prompt_text := updatedPrompt }

/-! ## Audio background processing

`processTranscription` (audioRoutes.js lines 202-256) drives one
transcription job: pending → processing → completed / failed. -/

/-- The `audio_metadata` fields the lifecycle code reads or writes. -/
structure AudioRecord where
  status : String
  transcription : Option String
  error_message : Option String
  audio_name : String
  deriving Repr, DecidableEq

/-- The record inserted by `uploadAudioUrl` before background
processing starts (audioRoutes.js lines 175-189). -/
def initialAudioRecord (audioName : String) : AudioRecord :=
  ⟨"pending", none, none, audioName⟩

/-- `transcribeAudioWithDeepgram` (audioRoutes.js lines 24-63): on a
successful API call it returns the transcript extracted from the
response (possibly the empty string); every thrown error is caught and
turned into an empty transcription. -/
def transcribeAudioWithDeepgram (apiResult : Except String String) : String :=
  match apiResult with
  | .ok transcript => transcript
  | .error _ => ""

/-- Environment of one `processTranscription` run. -/
structure AudioProcEnv where
  /-- Does the `status: processing` update succeed?  Its error is not
  checked, so it cannot abort the run either way. -/
  processingUpdateOk : Bool
  /-- The Deepgram API call: the extracted transcript, or a thrown error. -/
  deepgram : Except String String
  /-- Does the `completed` update succeed? -/
  completedUpdateOk : Bool
  /-- Does the `failed` update in the catch succeed?  Unchecked. -/
  failedUpdateOk : Bool

/-- Result of a `processTranscription` run. -/
structure AudioProcResult where
  final : AudioRecord
  writes : List AudioRecord
  deriving Repr, DecidableEq

/-- The catch block of `processTranscription`: write `status: failed`
with the thrown message. -/
def audioFailWith (env : AudioProcEnv) (rec : AudioRecord) (msg : String)
    (writes : List AudioRecord) : AudioProcResult :=
  if env.failedUpdateOk then
    let r := { rec with status := "failed", error_message := some msg }
    ⟨r, writes ++ [r]⟩
  else
    ⟨rec, writes⟩

/-- `processTranscription` (audioRoutes.js lines 202-256). -/
def processTranscription (env : AudioProcEnv) (rec0 : AudioRecord) :
    AudioProcResult :=
  let rec1 := if env.processingUpdateOk then { rec0 with status := "processing" } else rec0
  let writes1 := if env.processingUpdateOk then [rec1] else []
  let transcript := transcribeAudioWithDeepgram env.deepgram
  if transcript = "" then
    audioFailWith env rec1 "Failed to transcribe audio - empty transcription returned" writes1
  else if env.completedUpdateOk then
    let r := { rec1 with transcription := some transcript, status := "completed" }
    ⟨r, writes1 ++ [r]⟩
  else
    audioFailWith env rec1 "Failed to save transcription results" writes1

/-- All store-visible states of an audio job processed from submission. -/
def audioTrace (env : AudioProcEnv) (audioName : String) : List AudioRecord :=
  initialAudioRecord audioName :: (processTranscription env (initialAudioRecord audioName)).writes

/-- The `editAudio` route (audioRoutes.js lines 521-548): updates
`audio_name` unconditionally — it never inspects `status`. -/
def editAudio (rec : AudioRecord) (updatedName : String) : AudioRecord :=
  { rec with audio_name := updatedName }

/-! ## Concurrent reservations

`subtractCoins` performs a plain read (`select user_coins`) followed by
an absolute write (`update user_coins = read - amount`), with no
compare-and-swap and no transaction.  Two concurrent executions against
the same owner interleave at the granularity of these database calls.
The model runs two executions under an explicit schedule of atomic
read / check-and-write steps. -/

/-- Progress of one in-flight `subtractCoins` execution. -/
inductive ReserveProc where
  | start
  | readDone (r : Int)
  | finished (succeeded : Bool)
  deriving Repr, DecidableEq

/-- Shared balance plus the two in-flight executions. -/
structure ConcState where
  balance : Int
  p1 : ReserveProc
  p2 : ReserveProc
  deriving Repr, DecidableEq

/-- One atomic step of a `subtractCoins` execution reserving `amount`:
first the balance read, then the local sufficiency check together with
the absolute write `user_coins = r - amount`. -/
def reserveStep (amount : Int) (p : ReserveProc) (bal : Int) :
    ReserveProc × Int :=
  match p with
  | .start => (.readDone bal, bal)
  | .readDone r => if r < amount then (.finished false, bal) else (.finished true, r - amount)
  | .finished b => (.finished b, bal)

/-- Run one scheduled step: `true` steps the first execution, `false`
the second. -/
def concStep (a1 a2 : Int) (s : ConcState) (who : Bool) : ConcState :=
  if who then
    let (p, b) := reserveStep a1 s.p1 s.balance
    { s with p1 := p, balance := b }
  else
    let (p, b) := reserveStep a2 s.p2 s.balance
    { s with p2 := p, balance := b }

/-- Run two concurrent `subtractCoins` executions under a schedule. -/
def runConcurrent (a1 a2 : Int) (sched : List Bool) (s : ConcState) : ConcState :=
  sched.foldl (concStep a1 a2) s

/-- Sequential composition of `subtractCoins` calls (store calls all
succeeding): returns the final balance and the total amount of the
successful reservations. -/
def runSequential (uid tname : String) : Int → List Int → Int × Int
  | bal, [] => (bal, 0)
  | bal, a :: rest =>
      let r := subtractCoins uid tname a bal true true
      let s := if r.resp = .ok then a else 0
      let (fb, rests) := runSequential uid tname r.newBalance rest
      (fb, s + rests)

/-! ## Invariant predicates and message constants -/

/-- The warning the fallback path writes into `error_message` while
still marking the video `completed` (videoRoutes.js line 422). -/
def storageWarningMessage : String := "Video generated but not uploaded to storage"

/-- The message written when the polling budget is exhausted
(videoRoutes.js line 442). -/
def videoTimeoutMessage : String :=
  "Video generation timed out - process took longer than expected"

/-- A job status is terminal when it is `completed` or `failed`. -/
def VideoRecord.isTerminal (r : VideoRecord) : Bool :=
  r.status == "completed" || r.status == "failed"

/-- A job status is terminal when it is `completed` or `failed`. -/
def AudioRecord.isTerminal (r : AudioRecord) : Bool :=
  r.status == "completed" || r.status == "failed"

/-- Field invariant actually maintained by the video lifecycle code:
`video_url` is non-null exactly on `completed` records; `failed`
records carry an error message; and an error message occurs only on
`failed` records or on `completed` records carrying the storage
warning. -/
def videoFieldInvariant (r : VideoRecord) : Prop :=
  (r.video_url ≠ none ↔ r.status = "completed") ∧
  (r.status = "failed" → r.error_message ≠ none) ∧
  (r.error_message ≠ none →
    r.status = "failed" ∨ (r.status = "completed" ∧ r.error_message = some storageWarningMessage))

/-- Field invariant maintained by the audio lifecycle code: the
transcription is non-null exactly on `completed` records and the error
message exactly on `failed` records. -/
def audioFieldInvariant (r : AudioRecord) : Prop :=
  (r.transcription ≠ none ↔ r.status = "completed") ∧
  (r.error_message ≠ none ↔ r.status = "failed")

/-- Does a poll outcome report a terminal task state (success with a
video URL, or failure)? -/
def pollReportsTerminal (o : PollOutcome) : Bool :=
  match o with
  | .error _ => false
  | .result ts url => (ts == some "SUCCEEDED" && url.isSome) || ts == some "FAILED"

/-! ## C2 — reservation cost -/

/-- C2: the claim states the transcription charge is
`max(2, ceil(durationSeconds / 60 * 2))` coins.  The code
(audioRoutes.js line 152) computes `Math.max(2, Math.ceil(duration * 2))`
with no division by 60, although the repository's own test calls the
route with `duration: 30 // 30 seconds test duration` and its README
documents the charge as "2 coins per minute": for a 30-second audio the
code charges 60 coins where the documented formula gives 2.  The video
constant (25 coins) does match. -/
theorem transcription_cost_charges_per_second :
    requiredCoinsAudio 30 = 60 ∧ specTranscriptionCost 30 = 2 ∧
    requiredCoinsVideo = 25 := by
  refine ⟨?_, ?_, rfl⟩ <;> norm_num [requiredCoinsAudio, specTranscriptionCost]

/-! ## C4 — reserve semantics -/

/-- C4 counterexample: a reserve call with `amount = 0` fails (the
route's falsy-field guard rejects it as missing) even though `0` does
not exceed the balance of `10`, so `subtractCoins` does not fail
exactly when the amount exceeds the balance. -/
theorem reserve_zero_amount_fails_below_balance :
    (subtractCoins "user-1" "Audio Transcription" 0 10 true true).resp ≠ SubtractResp.ok ∧
    ¬ ((0 : ℤ) > 10) := by
  decide

/-- C4 (amended): for every reserve call with a nonzero amount and
nonempty identifiers, when the balance read and the balance update
succeed, the call succeeds exactly when the amount does not exceed the
current balance; a rejection for insufficient funds leaves the balance
unchanged and logs a `failed` entry recording the unchanged balance; a
success decrements the balance by the amount and logs a `success` entry
recording the resulting balance. -/
theorem reserve_semantics_nonzero_amount (uid tname : String) (amount balance : Int)
    (huid : uid ≠ "") (htname : tname ≠ "") (hamt : amount ≠ 0) :
    ((subtractCoins uid tname amount balance true true).resp = SubtractResp.ok ↔
        amount ≤ balance) ∧
    (balance < amount →
        (subtractCoins uid tname amount balance true true).newBalance = balance ∧
        (subtractCoins uid tname amount balance true true).entries =
          [⟨uid, tname, amount, balance, "failed"⟩]) ∧
    (amount ≤ balance →
        (subtractCoins uid tname amount balance true true).newBalance = balance - amount ∧
        (subtractCoins uid tname amount balance true true).entries =
          [⟨uid, tname, amount, balance - amount, "success"⟩]) := by
  unfold subtractCoins
  rcases lt_or_le balance amount with h | h
  · simp [huid, htname, hamt, h, not_le.mpr h]
  · simp [huid, htname, hamt, not_lt.mpr h, h]

/-- C4 witness: instantiation of `reserve_semantics_nonzero_amount` at
a concrete successful reservation. -/
theorem reserve_semantics_nonzero_amount_witness :
    (subtractCoins "user-1" "Video Generation" 4 10 true true).resp = SubtractResp.ok ∧
    (subtractCoins "user-1" "Video Generation" 4 10 true true).newBalance = 6 := by
  have h := reserve_semantics_nonzero_amount "user-1" "Video Generation" 4 10
    (by decide) (by decide) (by decide)
  exact ⟨h.1.mpr (by norm_num), (h.2.2 (by norm_num)).1⟩

/-! ## C5 — one ledger entry per attempt -/

/-- C5 counterexample: a reservation attempt on which the balance
update fails produces no `user_transaction` row at all — the code
returns a 500 without logging — so not every execution path of the
reserve operation produces exactly one LedgerEntry. -/
theorem reserve_update_failure_writes_no_entry :
    (subtractCoins "user-1" "Video Generation" 5 10 true false).resp = SubtractResp.updateError ∧
    (subtractCoins "user-1" "Video Generation" 5 10 true false).entries = [] := by
  decide

/-- C5 (amended): a reservation attempt produces exactly one
LedgerEntry precisely when its inputs pass the falsy-field guard, the
balance read succeeds, and the attempt is either rejected for
insufficient funds or its balance update succeeds; the invalid-input,
failed-read, and failed-update paths produce none. -/
theorem ledger_entry_count_characterization (uid tname : String)
    (amount balance : Int) (fetchOk updateOk : Bool) :
    (subtractCoins uid tname amount balance fetchOk updateOk).entries.length = 1 ↔
      (¬ (uid = "" ∨ amount = 0 ∨ tname = "") ∧ fetchOk = true ∧
        (balance < amount ∨ updateOk = true)) := by
  unfold subtractCoins
  rcases fetchOk with _ | _ <;> rcases updateOk with _ | _ <;>
    by_cases hv : uid = "" ∨ amount = 0 ∨ tname = "" <;>
    by_cases hb : balance < amount <;>
    simp [hv, hb]

/-! ## C9 — concurrent reservations -/

/-- C9 counterexample: with an initial balance of 10, two concurrent
reserve calls of 8 each, interleaved read-read-write-write, both
succeed although their combined amount 16 exceeds the balance — the
read-then-absolute-write in `subtractCoins` has no atomicity, so the
second write also overwrites the first debit. -/
theorem concurrent_reserves_oversubscribe :
    (runConcurrent 8 8 [true, false, true, false] ⟨10, .start, .start⟩).p1 =
        ReserveProc.finished true ∧
    (runConcurrent 8 8 [true, false, true, false] ⟨10, .start, .start⟩).p2 =
        ReserveProc.finished true ∧
    (runConcurrent 8 8 [true, false, true, false] ⟨10, .start, .start⟩).balance = 2 ∧
    ((8 : Int) + 8 > 10) := by
  decide

/-- C9 (amended): when reserve calls against one owner are serialized
(each call's read-check-write runs without interleaving), a
non-negative starting balance never goes negative and the total amount
of the successful reservations never exceeds the starting balance. -/
theorem sequential_reserves_never_negative (uid tname : String)
    (balance : Int) (amounts : List Int) (hbal : 0 ≤ balance) :
    0 ≤ (runSequential uid tname balance amounts).1 ∧
    (runSequential uid tname balance amounts).2 ≤ balance := by
  induction amounts generalizing balance with
  | nil => simpa [runSequential] using hbal
  | cons a rest ih =>
      unfold runSequential
      by_cases hv : uid = "" ∨ a = 0 ∨ tname = ""
      · simpa [subtractCoins, hv] using ih balance hbal
      · by_cases hb : balance < a
        · simpa [subtractCoins, hv, hb] using ih balance hbal
        · have h := ih (balance - a) (by omega)
          simp only [subtractCoins, hv, hb] at *
          constructor
          · simpa [subtractCoins, hv, hb] using h.1
          · have h2 := h.2
            simp only [runSequential] at *
            simp [subtractCoins, hv, hb] at *
            omega

/-- C9 witness: instantiation of `sequential_reserves_never_negative`
at a concrete owner and amount list. -/
theorem sequential_reserves_never_negative_witness :
    0 ≤ (runSequential "user-1" "Video Generation" 10 [4, 4, 4]).1 ∧
    (runSequential "user-1" "Video Generation" 10 [4, 4, 4]).2 ≤ 10 :=
  sequential_reserves_never_negative "user-1" "Video Generation" 10 [4, 4, 4] (by norm_num)

/-! ## C3 — insufficient balance rejects synchronously, no job record -/

/-- C3: for both submission routes, when the owner's balance is below
the computed cost, the handler returns the insufficient-balance error
synchronously and never issues the job-record insert — the insert sits
after a successful `checkUserCoins` and `deductCoins` in both handlers. -/
theorem insufficient_balance_rejects_without_job :
    (∀ (uid audioUrl : String) (duration : ℚ) (balance : Int) (updateOk insertOk : Bool),
      uid ≠ "" → audioUrl ≠ "" → 0 < duration → audioUrl.length ≤ 255 →
      balance < requiredCoinsAudio duration →
      (uploadAudioUrl uid audioUrl duration true balance true updateOk insertOk).resp =
          SubmitResp.badRequest "Insufficient coins. Please buy more coins." ∧
      (uploadAudioUrl uid audioUrl duration true balance true updateOk insertOk).jobInserted
          = false) ∧
    (∀ (uid promptText : String) (balance : Int) (updateOk insertOk : Bool),
      uid ≠ "" → promptText ≠ "" → promptText.length ≤ 1000 →
      balance < requiredCoinsVideo →
      (createVideo uid promptText true balance true updateOk insertOk).resp =
          SubmitResp.badRequest "Insufficient coins. Please buy more coins." ∧
      (createVideo uid promptText true balance true updateOk insertOk).jobInserted
          = false) := by
  constructor
  · intro uid audioUrl duration balance updateOk insertOk h1 h2 h3 h4 h5
    simp [uploadAudioUrl, h1, h2, not_le.mpr h3, not_lt.mpr h4, h5]
  · intro uid promptText balance updateOk insertOk h1 h2 h3 h4
    simp [createVideo, h1, h2, not_lt.mpr h3, h4]

/-- C3 witness: instantiation of
`insufficient_balance_rejects_without_job` for both routes at concrete
requests with balance 1 below cost. -/
theorem insufficient_balance_rejects_without_job_witness :
    (uploadAudioUrl "user-1" "https://example.com/a.mp3" 1 true 1 true true true).resp =
        SubmitResp.badRequest "Insufficient coins. Please buy more coins." ∧
    (uploadAudioUrl "user-1" "https://example.com/a.mp3" 1 true 1 true true true).jobInserted
        = false ∧
    (createVideo "user-1" "a cat on a skateboard" true 1 true true true).resp =
        SubmitResp.badRequest "Insufficient coins. Please buy more coins." ∧
    (createVideo "user-1" "a cat on a skateboard" true 1 true true true).jobInserted
        = false := by
  have ha := insufficient_balance_rejects_without_job.1 "user-1" "https://example.com/a.mp3"
    1 1 true true (by decide) (by decide) (by norm_num) (by decide)
    (by norm_num [requiredCoinsAudio])
  have hv := insufficient_balance_rejects_without_job.2 "user-1" "a cat on a skateboard"
    1 true true (by decide) (by decide) (by decide) (by norm_num [requiredCoinsVideo])
  exact ⟨ha.1, ha.2, hv.1, hv.2⟩

/-! ## C10 — completed transcriptions are non-empty -/

/-- C10: an audio job can only reach `completed` carrying a non-empty
transcription, and whenever the Deepgram call errors or yields an empty
transcript (both collapse to the empty string in
`transcribeAudioWithDeepgram`), the background processor writes
`failed` with the message
`Failed to transcribe audio - empty transcription returned`. -/
theorem completed_transcription_nonempty :
    (∀ (env : AudioProcEnv) (name : String),
      (processTranscription env (initialAudioRecord name)).final.status = "completed" →
      (processTranscription env (initialAudioRecord name)).final.transcription ≠ none ∧
      (processTranscription env (initialAudioRecord name)).final.transcription ≠ some "") ∧
    (∀ (env : AudioProcEnv) (name : String),
      transcribeAudioWithDeepgram env.deepgram = "" → env.failedUpdateOk = true →
      (processTranscription env (initialAudioRecord name)).final.status = "failed" ∧
      (processTranscription env (initialAudioRecord name)).final.error_message =
        some "Failed to transcribe audio - empty transcription returned") := by
  constructor
  · intro env name hdone
    by_cases ht : transcribeAudioWithDeepgram env.deepgram = ""
    · rcases henv : env.failedUpdateOk with _ | _ <;>
        rcases hp : env.processingUpdateOk with _ | _ <;>
        simp [processTranscription, audioFailWith, ht, henv, hp,
          initialAudioRecord] at hdone
    · rcases hc : env.completedUpdateOk with _ | _
      · rcases henv : env.failedUpdateOk with _ | _ <;>
          rcases hp : env.processingUpdateOk with _ | _ <;>
          simp [processTranscription, audioFailWith, ht, henv, hc, hp,
            initialAudioRecord] at hdone
      · simp [processTranscription, audioFailWith, ht, hc]
  · intro env name ht hfail
    simp [processTranscription, audioFailWith, ht, hfail]

/-- C10 witness: instantiation of `completed_transcription_nonempty`,
first at an environment whose Deepgram call returns "hello world" and
whose writes succeed, then at one whose Deepgram call throws. -/
theorem completed_transcription_nonempty_witness :
    ((processTranscription ⟨true, .ok "hello world", true, true⟩
        (initialAudioRecord "clip")).final.transcription ≠ none ∧
      (processTranscription ⟨true, .ok "hello world", true, true⟩
        (initialAudioRecord "clip")).final.transcription ≠ some "") ∧
    ((processTranscription ⟨true, .error "Deepgram API error: 500", true, true⟩
        (initialAudioRecord "clip")).final.status = "failed" ∧
      (processTranscription ⟨true, .error "Deepgram API error: 500", true, true⟩
        (initialAudioRecord "clip")).final.error_message =
        some "Failed to transcribe audio - empty transcription returned") := by
  constructor
  · exact completed_transcription_nonempty.1 ⟨true, .ok "hello world", true, true⟩
      "clip" (by decide)
  · exact completed_transcription_nonempty.2 ⟨true, .error "Deepgram API error: 500", true, true⟩
      "clip" (by decide) rfl

/-! ## Polling-loop lemmas -/

/-- Unfolding of a loop iteration whose `checkVideoStatus` call threw:
the iteration's catch continues polling with nothing written. -/
theorem videoPollLoop_error_step (env : VideoProcEnv) (n : ℕ) (rec : VideoRecord)
    (polls : ℕ) (ws : List VideoRecord) (msg : String)
    (h : env.poll polls = PollOutcome.error msg) :
    videoPollLoop env (n + 1) rec polls ws = videoPollLoop env n rec (polls + 1) ws := by
  rw [videoPollLoop.eq_2, h]

/-- Unfolding of a loop iteration whose poll did not report success
with a URL: the loop writes the task status and continues — also when
the poll reported `FAILED`, whose throw the iteration's catch swallows. -/
theorem videoPollLoop_continue_step (env : VideoProcEnv) (n : ℕ) (rec : VideoRecord)
    (polls : ℕ) (ws : List VideoRecord) (ts url : Option String)
    (h : env.poll polls = PollOutcome.result ts url)
    (hnt : ¬ (ts = some "SUCCEEDED" ∧ url.isSome)) :
    videoPollLoop env (n + 1) rec polls ws =
      videoPollLoop env n { rec with task_status := ts } (polls + 1)
        (ws ++ [{ rec with task_status := ts }]) := by
  rw [videoPollLoop.eq_2, h]
  simp only [if_neg hnt]

/-- Unfolding of a loop iteration whose poll reported `SUCCEEDED` with
a video URL: the loop enters the upload branch. -/
theorem videoPollLoop_succeeded_step (env : VideoProcEnv) (n : ℕ) (rec : VideoRecord)
    (polls : ℕ) (ws : List VideoRecord) (u : String)
    (h : env.poll polls = PollOutcome.result (some "SUCCEEDED") (some u)) :
    videoPollLoop env (n + 1) rec polls ws =
      videoSucceededBranch env { rec with task_status := some "SUCCEEDED" } u (polls + 1)
        (ws ++ [{ rec with task_status := some "SUCCEEDED" }]) := by
  rw [videoPollLoop.eq_2, h]
  simp only [if_pos (by simp : (some "SUCCEEDED" : Option String) = some "SUCCEEDED" ∧ (some u).isSome)]
  rfl

/-- The failure write appends at most one record: the input record
marked `failed` with the thrown message. -/
theorem videoFailWith_writes_cases (env : VideoProcEnv) (rec : VideoRecord)
    (msg : String) (polls : ℕ) (ws : List VideoRecord) :
    (videoFailWith env rec msg polls ws).writes = ws ∨
    (videoFailWith env rec msg polls ws).writes =
      ws ++ [{ rec with status := "failed", error_message := some msg }] := by
  rcases h : env.failedUpdateOk with _ | _
  · exact Or.inl (by simp [videoFailWith, h])
  · exact Or.inr (by simp [videoFailWith, h])

/-- The upload branch appends at most one record: the input record
marked `completed` with a video URL, carrying either the unchanged
error message or the storage warning. -/
theorem videoSucceededBranch_writes_cases (env : VideoProcEnv) (rec : VideoRecord)
    (u : String) (polls : ℕ) (ws : List VideoRecord) :
    (videoSucceededBranch env rec u polls ws).writes = ws ∨
    (∃ v e, (videoSucceededBranch env rec u polls ws).writes =
        ws ++ [{ rec with video_url := some v, status := "completed", error_message := e }] ∧
      (e = rec.error_message ∨ e = some storageWarningMessage)) := by
  rcases hd : env.download with em | su
  · rcases hfb : env.fallbackUpdateOk with _ | _
    · exact Or.inl (by simp [videoSucceededBranch, hd, hfb])
    · exact Or.inr ⟨u, some storageWarningMessage,
        by simp [videoSucceededBranch, hd, hfb, storageWarningMessage], Or.inr rfl⟩
  · rcases hfin : env.finalUpdateOk with _ | _
    · rcases hfb : env.fallbackUpdateOk with _ | _
      · exact Or.inl (by simp [videoSucceededBranch, hd, hfin, hfb])
      · exact Or.inr ⟨u, some storageWarningMessage,
          by simp [videoSucceededBranch, hd, hfin, hfb, storageWarningMessage], Or.inr rfl⟩
    · exact Or.inr ⟨su, rec.error_message,
        by simp [videoSucceededBranch, hd, hfin], Or.inl rfl⟩

/-- When no poll ever reports a terminal task state and the failure
write succeeds, the loop consumes all its fuel — one poll per
10-second iteration — and ends by writing `failed` with the timeout
message. -/
theorem videoPollLoop_timeout (env : VideoProcEnv)
    (hpoll : ∀ i, pollReportsTerminal (env.poll i) = false)
    (hfail : env.failedUpdateOk = true) :
    ∀ (fuel : ℕ) (rec : VideoRecord) (polls : ℕ) (ws : List VideoRecord),
      (videoPollLoop env fuel rec polls ws).pollCount = polls + fuel ∧
      (videoPollLoop env fuel rec polls ws).final.status = "failed" ∧
      (videoPollLoop env fuel rec polls ws).final.error_message = some videoTimeoutMessage := by
  intro fuel
  induction fuel with
  | zero =>
      intro rec polls ws
      simp [videoPollLoop, videoFailWith, hfail, videoTimeoutMessage]
  | succ n ih =>
      intro rec polls ws
      have hterm := hpoll polls
      rcases h : env.poll polls with msg | ⟨ts, url⟩
      · rw [videoPollLoop_error_step env n rec polls ws msg h]
        have h2 := ih rec (polls + 1) ws
        refine ⟨?_, h2.2⟩
        rw [h2.1]
        omega
      · rw [h] at hterm
        simp only [pollReportsTerminal, Bool.or_eq_false_iff, Bool.and_eq_false_iff,
          beq_eq_false_iff_ne, ne_eq, Bool.not_eq_true, Option.not_isSome,
          Option.isNone_iff_eq_none] at hterm
        have hnt : ¬ (ts = some "SUCCEEDED" ∧ url.isSome) := by
          rintro ⟨rfl, hsome⟩
          rcases hterm.1 with hbad | hbad
          · exact hbad rfl
          · rw [hbad] at hsome
            simp at hsome
        rw [videoPollLoop_continue_step env n rec polls ws ts url h hnt]
        have h2 := ih { rec with task_status := ts } (polls + 1)
          (ws ++ [{ rec with task_status := ts }])
        refine ⟨?_, h2.2⟩
        rw [h2.1]
        omega

/-- Every record the polling loop writes — intermediate task-status
updates as well as terminal writes — satisfies the amended field
invariant, provided the record entering the loop is a `generating`
record without result or error and the writes so far satisfy it. -/
theorem videoPollLoop_writes_invariant (env : VideoProcEnv) :
    ∀ (fuel : ℕ) (rec : VideoRecord) (polls : ℕ) (ws : List VideoRecord),
      rec.status = "generating" → rec.video_url = none → rec.error_message = none →
      (∀ w ∈ ws, videoFieldInvariant w) →
      ∀ w ∈ (videoPollLoop env fuel rec polls ws).writes, videoFieldInvariant w := by
  intro fuel
  induction fuel with
  | zero =>
      intro rec polls ws hst hurl herr hws w hw
      rw [videoPollLoop.eq_1] at hw
      rcases videoFailWith_writes_cases env rec
          "Video generation timed out - process took longer than expected" polls ws with
        hc | hc
      · exact hws w (hc ▸ hw)
      · rw [hc, List.mem_append] at hw
        rcases hw with hw | hw
        · exact hws w hw
        · rw [List.mem_singleton] at hw
          subst hw
          exact ⟨by simp [hurl], by simp, fun _ => Or.inl rfl⟩
  | succ n ih =>
      intro rec polls ws hst hurl herr hws w hw
      rcases h : env.poll polls with msg | ⟨ts, url⟩
      · rw [videoPollLoop_error_step env n rec polls ws msg h] at hw
        exact ih rec (polls + 1) ws hst hurl herr hws w hw
      · have hrec' : videoFieldInvariant { rec with task_status := ts } := by
          exact ⟨by simp [hurl, hst], by simp [hst], by simp [herr]⟩
        have hws' : ∀ x ∈ ws ++ [{ rec with task_status := ts }], videoFieldInvariant x := by
          intro x hx
          rw [List.mem_append] at hx
          rcases hx with hx | hx
          · exact hws x hx
          · rw [List.mem_singleton] at hx
            exact hx ▸ hrec'
        by_cases hcond : ts = some "SUCCEEDED" ∧ url.isSome
        · obtain ⟨rfl, hsome⟩ := hcond
          obtain ⟨u, rfl⟩ := Option.isSome_iff_exists.mp hsome
          rw [videoPollLoop_succeeded_step env n rec polls ws u h] at hw
          rcases videoSucceededBranch_writes_cases env
              { rec with task_status := some "SUCCEEDED" } u (polls + 1)
              (ws ++ [{ rec with task_status := some "SUCCEEDED" }]) with hc | ⟨v, e, hc, he⟩
          · rw [hc] at hw
            exact hws' w hw
          · rw [hc, List.mem_append] at hw
            rcases hw with hw | hw
            · exact hws' w hw
            · rw [List.mem_singleton] at hw
              subst hw
              rcases he with rfl | rfl
              · exact ⟨by simp, by simp, fun hx => by simp [herr] at hx⟩
              · exact ⟨by simp, by simp, fun _ => Or.inr ⟨rfl, rfl⟩⟩
        · rw [videoPollLoop_continue_step env n rec polls ws ts url h hcond] at hw
          exact ih { rec with task_status := ts } (polls + 1)
            (ws ++ [{ rec with task_status := ts }]) hst hurl herr hws' w hw

/-- Every record the polling loop writes before its last write is
non-terminal: the loop never writes anything after a `completed` or
`failed` record. -/
theorem videoPollLoop_writes_dropLast (env : VideoProcEnv) :
    ∀ (fuel : ℕ) (rec : VideoRecord) (polls : ℕ) (ws : List VideoRecord),
      rec.status = "generating" →
      (∀ w ∈ ws, w.isTerminal = false) →
      ∀ w ∈ (videoPollLoop env fuel rec polls ws).writes.dropLast, w.isTerminal = false := by
  intro fuel
  induction fuel with
  | zero =>
      intro rec polls ws hst hws w hw
      rw [videoPollLoop.eq_1] at hw
      rcases videoFailWith_writes_cases env rec
          "Video generation timed out - process took longer than expected" polls ws with
        hc | hc
      · exact hws w ((List.dropLast_sublist _).subset (hc ▸ hw))
      · rw [hc, List.dropLast_concat] at hw
        exact hws w hw
  | succ n ih =>
      intro rec polls ws hst hws w hw
      rcases h : env.poll polls with msg | ⟨ts, url⟩
      · rw [videoPollLoop_error_step env n rec polls ws msg h] at hw
        exact ih rec (polls + 1) ws hst hws w hw
      · have hrec' : VideoRecord.isTerminal { rec with task_status := ts } = false := by
          simp [VideoRecord.isTerminal, hst]
        have hws' : ∀ x ∈ ws ++ [{ rec with task_status := ts }], x.isTerminal = false := by
          intro x hx
          rw [List.mem_append] at hx
          rcases hx with hx | hx
          · exact hws x hx
          · rw [List.mem_singleton] at hx
            exact hx ▸ hrec'
        by_cases hcond : ts = some "SUCCEEDED" ∧ url.isSome
        · obtain ⟨rfl, hsome⟩ := hcond
          obtain ⟨u, rfl⟩ := Option.isSome_iff_exists.mp hsome
          rw [videoPollLoop_succeeded_step env n rec polls ws u h] at hw
          rcases videoSucceededBranch_writes_cases env
              { rec with task_status := some "SUCCEEDED" } u (polls + 1)
              (ws ++ [{ rec with task_status := some "SUCCEEDED" }]) with hc | ⟨v, e, hc, _⟩
          · exact hws' w ((List.dropLast_sublist _).subset (hc ▸ hw))
          · rw [hc, List.dropLast_concat] at hw
            exact hws' w hw
        · rw [videoPollLoop_continue_step env n rec polls ws ts url h hcond] at hw
          exact ih { rec with task_status := ts } (polls + 1)
            (ws ++ [{ rec with task_status := ts }]) hst hws' w hw

/-- Records written by the failure path satisfy the amended field
invariant whenever the record being failed carries no video URL. -/
theorem videoFailWith_writes_invariant (env : VideoProcEnv) (rec : VideoRecord)
    (msg : String) (polls : ℕ) (ws : List VideoRecord)
    (hurl : rec.video_url = none)
    (hws : ∀ w ∈ ws, videoFieldInvariant w) :
    ∀ w ∈ (videoFailWith env rec msg polls ws).writes, videoFieldInvariant w := by
  intro w hw
  rcases videoFailWith_writes_cases env rec msg polls ws with hc | hc
  · exact hws w (hc ▸ hw)
  · rw [hc, List.mem_append] at hw
    rcases hw with hw | hw
    · exact hws w hw
    · rw [List.mem_singleton] at hw
      subst hw
      exact ⟨by simp [hurl], by simp, fun _ => Or.inl rfl⟩

/-- Every record written during one video job's background processing
satisfies the amended field invariant. -/
theorem processVideoGeneration_writes_invariant (env : VideoProcEnv) (p : String) :
    ∀ r ∈ (processVideoGeneration env (initialVideoRecord p)).writes, videoFieldInvariant r := by
  intro r hr
  rw [processVideoGeneration] at hr
  split at hr
  · exact videoFailWith_writes_invariant env _ _ _ _ (by simp [initialVideoRecord])
      (by simp) r hr
  · simp only [initialVideoRecord] at hr
    split at hr
    · exact videoFailWith_writes_invariant env _ _ _ _ (by simp)
        (by intro w hw
            rw [List.mem_singleton] at hw
            subst hw
            exact ⟨by simp, by simp, by simp⟩) r hr
    · split at hr
      · exact videoFailWith_writes_invariant env _ _ _ _ (by simp)
          (by intro w hw
              rw [List.mem_singleton] at hw
              subst hw
              exact ⟨by simp, by simp, by simp⟩) r hr
      · split at hr
        · exact videoFailWith_writes_invariant env _ _ _ _ (by simp)
            (by intro w hw
                rw [List.mem_singleton] at hw
                subst hw
                exact ⟨by simp, by simp, by simp⟩) r hr
        · refine videoPollLoop_writes_invariant env maxPollAttempts _ 0 _ rfl rfl rfl
            ?_ r hr
          intro w hw
          rcases List.mem_cons.mp hw with rfl | hw
          · exact ⟨by simp, by simp, by simp⟩
          · rw [List.mem_singleton] at hw
            subst hw
            exact ⟨by simp, by simp, by simp⟩

/-- Records written before the last write of the failure path are
among the writes that precede it. -/
theorem videoFailWith_writes_dropLast (env : VideoProcEnv) (rec : VideoRecord)
    (msg : String) (polls : ℕ) (ws : List VideoRecord)
    (hws : ∀ w ∈ ws, w.isTerminal = false) :
    ∀ w ∈ (videoFailWith env rec msg polls ws).writes.dropLast, w.isTerminal = false := by
  intro w hw
  rcases videoFailWith_writes_cases env rec msg polls ws with hc | hc
  · exact hws w ((List.dropLast_sublist _).subset (hc ▸ hw))
  · rw [hc, List.dropLast_concat] at hw
    exact hws w hw

/-- During one video job's background processing, every write except
possibly the last one is non-terminal. -/
theorem processVideoGeneration_writes_dropLast (env : VideoProcEnv) (p : String) :
    ∀ r ∈ (processVideoGeneration env (initialVideoRecord p)).writes.dropLast,
      r.isTerminal = false := by
  intro r hr
  rw [processVideoGeneration] at hr
  split at hr
  · exact videoFailWith_writes_dropLast env _ _ _ _ (by simp) r hr
  · simp only [initialVideoRecord] at hr
    split at hr
    · exact videoFailWith_writes_dropLast env _ _ _ _
        (by intro w hw
            rw [List.mem_singleton] at hw
            subst hw
            rfl) r hr
    · split at hr
      · exact videoFailWith_writes_dropLast env _ _ _ _
          (by intro w hw
              rw [List.mem_singleton] at hw
              subst hw
              rfl) r hr
      · split at hr
        · exact videoFailWith_writes_dropLast env _ _ _ _
            (by intro w hw
                rw [List.mem_singleton] at hw
                subst hw
                rfl) r hr
        · refine videoPollLoop_writes_dropLast env maxPollAttempts _ 0 _ rfl ?_ r hr
          intro w hw
          rcases List.mem_cons.mp hw with rfl | hw
          · rfl
          · rw [List.mem_singleton] at hw
            subst hw
            rfl

/-- Every record written during one audio job's background processing
is of one of three shapes: the `processing` update, a `completed`
record with a non-empty transcription, or a `failed` record with an
error message and no transcription. -/
theorem processTranscription_writes_cases (env : AudioProcEnv) (name : String) :
    ∀ r ∈ (processTranscription env (initialAudioRecord name)).writes,
      r = ⟨"processing", none, none, name⟩ ∨
      (∃ t, t ≠ "" ∧ r = ⟨"completed", some t, none, name⟩) ∨
      (∃ m, r = ⟨"failed", none, some m, name⟩) := by
  intro r hr
  rcases hp : env.processingUpdateOk with _ | _ <;>
    rcases hf : env.failedUpdateOk with _ | _ <;>
    rcases hc : env.completedUpdateOk with _ | _ <;>
    by_cases ht : transcribeAudioWithDeepgram env.deepgram = "" <;>
    simp only [processTranscription, audioFailWith, hp, hf, hc, ht, if_true, if_false,
      initialAudioRecord, List.nil_append, List.cons_append, List.mem_singleton,
      List.mem_cons, List.not_mem_nil, Bool.false_eq_true, ite_false, ite_true,
      reduceIte, or_false, false_or] at hr
  all_goals
    first
      | exact hr.elim
      | (obtain rfl := hr
         first
           | exact Or.inl rfl
           | exact Or.inr (Or.inl ⟨_, ht, rfl⟩)
           | exact Or.inr (Or.inr ⟨_, rfl⟩))
      | (rcases hr with rfl | rfl <;>
          first
            | exact Or.inl rfl
            | exact Or.inr (Or.inl ⟨_, ht, rfl⟩)
            | exact Or.inr (Or.inr ⟨_, rfl⟩))

/-- Membership in the `dropLast` of a cons breaks into the head or
membership in the tail's `dropLast`. -/
theorem mem_dropLast_cons {α : Type} {a w : α} {l : List α}
    (h : w ∈ (a :: l).dropLast) : w = a ∨ w ∈ l.dropLast := by
  cases l with
  | nil => simp [List.dropLast] at h
  | cons b t =>
      rw [List.dropLast_cons₂] at h
      exact List.mem_cons.mp h

/-- During one audio job's background processing, every write except
possibly the last one is non-terminal. -/
theorem processTranscription_writes_dropLast (env : AudioProcEnv) (name : String) :
    ∀ r ∈ (processTranscription env (initialAudioRecord name)).writes.dropLast,
      r.isTerminal = false := by
  intro r hr
  rcases hp : env.processingUpdateOk with _ | _ <;>
    rcases hf : env.failedUpdateOk with _ | _ <;>
    rcases hc : env.completedUpdateOk with _ | _ <;>
    by_cases ht : transcribeAudioWithDeepgram env.deepgram = "" <;>
    simp only [processTranscription, audioFailWith, hp, hf, hc, ht, if_true, if_false,
      initialAudioRecord, List.nil_append, List.cons_append, List.dropLast,
      List.mem_singleton, List.mem_cons, List.not_mem_nil, Bool.false_eq_true,
      ite_false, ite_true, reduceIte, or_false, false_or] at hr
  all_goals
    first
      | exact hr.elim
      | (obtain rfl := hr
         rfl)

/-! ## C6 — field invariants -/

/-- Environment of a video run whose generation succeeds, whose first
poll reports `SUCCEEDED` with a remote URL, and whose relocation into
Supabase storage throws. -/
def uploadFailEnv : VideoProcEnv :=
  ⟨true, .ok (some "task-1", some "PENDING"), true,
    fun _ => .result (some "SUCCEEDED") (some "https://dashscope.example/video.mp4"),
    .error "Failed to download video: 500 Internal Server Error", true, true, true⟩

/-- C6 counterexample: a reachable video record — produced when the
generated video cannot be relocated into storage — has
`status = completed` together with a non-null `error_message` (the
storage warning), so `errorMessage != null` is not equivalent to
`status == Failed` on reachable jobs. -/
theorem completed_video_with_warning_message :
    (processVideoGeneration uploadFailEnv (initialVideoRecord "a cat")).final ∈
        videoTrace uploadFailEnv "a cat" ∧
    (processVideoGeneration uploadFailEnv (initialVideoRecord "a cat")).final.status =
        "completed" ∧
    (processVideoGeneration uploadFailEnv (initialVideoRecord "a cat")).final.error_message ≠
        none := by
  decide

/-- C6 (amended): on every store-visible record of a job's lifecycle,
`resultRef` (the video URL / transcription) is non-null exactly on
`completed` records; `failed` records always carry an error message;
and an error message appears only on `failed` records or on `completed`
video records carrying the storage warning. -/
theorem field_invariant_amended :
    (∀ (env : VideoProcEnv) (p : String), ∀ r ∈ videoTrace env p, videoFieldInvariant r) ∧
    (∀ (env : AudioProcEnv) (name : String), ∀ r ∈ audioTrace env name, audioFieldInvariant r) := by
  constructor
  · intro env p r hr
    rw [videoTrace, List.mem_cons] at hr
    rcases hr with rfl | hr
    · exact ⟨by simp [initialVideoRecord], by simp [initialVideoRecord],
        by simp [initialVideoRecord]⟩
    · exact processVideoGeneration_writes_invariant env p r hr
  · intro env name r hr
    rw [audioTrace, List.mem_cons] at hr
    rcases hr with rfl | hr
    · exact ⟨by simp [initialAudioRecord], by simp [initialAudioRecord]⟩
    · rcases processTranscription_writes_cases env name r hr with rfl | ⟨t, ht, rfl⟩ | ⟨m, rfl⟩
      · exact ⟨by simp, by simp⟩
      · exact ⟨by simp, by simp⟩
      · exact ⟨by simp, by simp⟩

/-- C6 witness: instantiation of `field_invariant_amended` at the
record written by a completed-with-warning video run. -/
theorem field_invariant_amended_witness :
    videoFieldInvariant (processVideoGeneration uploadFailEnv (initialVideoRecord "a cat")).final :=
  field_invariant_amended.1 uploadFailEnv "a cat"
    (processVideoGeneration uploadFailEnv (initialVideoRecord "a cat")).final
    (by decide)

/-! ## C8 — terminal immutability -/

/-- Environment of a fully successful video run: generation starts,
the first poll reports `SUCCEEDED`, and the video is relocated into
storage. -/
def successEnv : VideoProcEnv :=
  ⟨true, .ok (some "task-1", some "PENDING"), true,
    fun _ => .result (some "SUCCEEDED") (some "https://dashscope.example/video.mp4"),
    .ok "https://supabase.example/user-uploads/users/u/videos/v.mp4", true, true, true⟩

/-- C8 counterexample: `editVideo` and `editAudio` mutate the prompt
text / audio name of a job whose status is already `completed`, so a
terminal job's fields are not immutable under the system's operations. -/
theorem edit_video_mutates_completed_job :
    ((processVideoGeneration successEnv (initialVideoRecord "a cat")).final.status =
        "completed" ∧
      editVideo (processVideoGeneration successEnv (initialVideoRecord "a cat")).final
          "a dog" ≠
        (processVideoGeneration successEnv (initialVideoRecord "a cat")).final) ∧
    ((processTranscription ⟨true, .ok "hello world", true, true⟩
          (initialAudioRecord "clip")).final.status = "completed" ∧
      editAudio (processTranscription ⟨true, .ok "hello world", true, true⟩
            (initialAudioRecord "clip")).final "renamed" ≠
        (processTranscription ⟨true, .ok "hello world", true, true⟩
            (initialAudioRecord "clip")).final) := by
  decide

/-- C8 (amended): the background processor itself never writes to a
job record again once it has written a terminal (`completed` or
`failed`) state: in the sequence of store-visible records of a job's
lifecycle, every record except possibly the last is non-terminal.
(The user-facing `editVideo` / `editAudio` routes, however, mutate
prompt text and audio name regardless of status.) -/
theorem processor_stops_writing_after_terminal :
    (∀ (env : VideoProcEnv) (p : String),
      ∀ r ∈ (videoTrace env p).dropLast, r.isTerminal = false) ∧
    (∀ (env : AudioProcEnv) (name : String),
      ∀ r ∈ (audioTrace env name).dropLast, r.isTerminal = false) := by
  constructor
  · intro env p r hr
    rw [videoTrace] at hr
    rcases mem_dropLast_cons hr with rfl | hr
    · rfl
    · exact processVideoGeneration_writes_dropLast env p r hr
  · intro env name r hr
    rw [audioTrace] at hr
    rcases mem_dropLast_cons hr with rfl | hr
    · rfl
    · exact processTranscription_writes_dropLast env name r hr

/-- C8 witness: instantiation of `processor_stops_writing_after_terminal`
at the first store-visible record of a successful video run. -/
theorem processor_stops_writing_after_terminal_witness :
    VideoRecord.isTerminal (initialVideoRecord "a cat") = false :=
  processor_stops_writing_after_terminal.1 successEnv "a cat"
    (initialVideoRecord "a cat") (by decide)

/-! ## C7 — timeout bound -/

/-- C7: when the external worker never reports a terminal state, a
video job — whose generation started and whose store writes succeed —
polls once per 10-second iteration and is written `failed` with the
timeout message exactly when the elapsed polling time reaches the
5-minute budget: the number of polls is `maxPollAttempts = 30` and
`pollingInterval * pollCount = maxPollingTime`, never more. -/
theorem polling_timeout_bound (env : VideoProcEnv) (p tid : String) (ts0 : Option String)
    (h1 : env.statusUpdateOk = true) (h2 : env.genResult = Except.ok (some tid, ts0))
    (h3 : env.taskUpdateOk = true) (h4 : env.failedUpdateOk = true)
    (hpoll : ∀ i, pollReportsTerminal (env.poll i) = false) :
    (processVideoGeneration env (initialVideoRecord p)).final.status = "failed" ∧
    (processVideoGeneration env (initialVideoRecord p)).final.error_message =
      some videoTimeoutMessage ∧
    (processVideoGeneration env (initialVideoRecord p)).pollCount = maxPollAttempts ∧
    pollingIntervalMs * (processVideoGeneration env (initialVideoRecord p)).pollCount =
      maxPollingTimeMs := by
  simp only [processVideoGeneration, h1, h2, h3, Bool.true_eq_false, if_false, reduceIte]
  have H := videoPollLoop_timeout env hpoll h4 maxPollAttempts
  refine ⟨(H _ _ _).2.1, (H _ _ _).2.2, ?_, ?_⟩
  · rw [(H _ _ _).1]
    exact Nat.zero_add _
  · rw [(H _ _ _).1]
    decide

/-- C7 witness: instantiation of `polling_timeout_bound` at an
environment whose polls always report a running, non-terminal task. -/
theorem polling_timeout_bound_witness :
    (processVideoGeneration
        ⟨true, .ok (some "task-1", some "PENDING"), true,
          fun _ => .result (some "RUNNING") none,
          .ok "https://supabase.example/v.mp4", true, true, true⟩
        (initialVideoRecord "a cat")).final.status = "failed" ∧
    (processVideoGeneration
        ⟨true, .ok (some "task-1", some "PENDING"), true,
          fun _ => .result (some "RUNNING") none,
          .ok "https://supabase.example/v.mp4", true, true, true⟩
        (initialVideoRecord "a cat")).pollCount = maxPollAttempts := by
  have h := polling_timeout_bound
    ⟨true, .ok (some "task-1", some "PENDING"), true,
      fun _ => .result (some "RUNNING") none,
      .ok "https://supabase.example/v.mp4", true, true, true⟩
    "a cat" "task-1" (some "PENDING") rfl rfl rfl rfl (fun _ => rfl)
  exact ⟨h.1, h.2.2.1⟩

/-! ## C1 — terminal poll failure handling -/

/-- Environment of a video run whose every poll reports the terminal
task state `FAILED` (with no video URL). -/
def failedPollEnv : VideoProcEnv :=
  ⟨true, .ok (some "task-1", some "PENDING"), true,
    fun _ => .result (some "FAILED") none,
    .ok "https://supabase.example/v.mp4", true, true, true⟩

/-- C1: when the external worker reports `task_status == 'FAILED'` on
the very first poll, the `throw new Error("Video generation failed on
DashScope")` is swallowed by the polling iteration's own catch block,
so the loop keeps polling for the full 30 attempts of its 5-minute
budget and the job is finally marked `failed` with the timeout message
— not at the first failed poll and not with the invoker's failure
message. -/
theorem failed_poll_keeps_polling_until_timeout :
    (processVideoGeneration failedPollEnv (initialVideoRecord "a cat")).pollCount =
        maxPollAttempts ∧
    1 < (processVideoGeneration failedPollEnv (initialVideoRecord "a cat")).pollCount ∧
    (processVideoGeneration failedPollEnv (initialVideoRecord "a cat")).final.status =
        "failed" ∧
    (processVideoGeneration failedPollEnv (initialVideoRecord "a cat")).final.error_message =
        some videoTimeoutMessage ∧
    (processVideoGeneration failedPollEnv (initialVideoRecord "a cat")).final.error_message ≠
        some "Video generation failed on DashScope" := by
  decide
